import Mathlib

/-!
Shallow embedding of the `everust` crate (src/lib.rs and tests/basic.rs).

The crate's `eval` function performs a fixed sequence of external effects:
create a temporary directory, write a generated source file into it, spawn
`rustc` on that file, and (on build success) spawn the produced executable,
classifying every outcome into the `EvalError` sum type.  We model the
external world (filesystem and process execution) as an oracle of
deterministic responses, and `eval` as a pure function from the code string
and the oracle to its result together with the ordered trace of external
actions it attempted.  Byte streams of child processes are modelled as lists
of byte values, decoded with a faithful model of Rust's
`String::from_utf8_lossy`.
-/

deriving instance DecidableEq for Except

namespace Everust

/-- Underlying system error carried by infrastructure failures
(model of `std::io::Error`, treated as opaque text). -/
abbrev IoError := String

/-- Captured outcome of a child process (model of `std::process::Output`):
exit-status success flag and the captured stdout/stderr byte streams. -/
structure Output where
  statusSuccess : Bool
  stdout : List Nat
  stderr : List Nat
  deriving DecidableEq, Repr

/-- Internal error enum of src/lib.rs (`enum OtherError`): the four
infrastructure failures, each carrying the underlying system error. -/
inductive OtherError where
  | FailedToCreateTempDir (e : IoError)
  | FailedToSpawnProg (e : IoError)
  | FailedToSpawnRustc (e : IoError)
  | FailedToWriteSrcFile (e : IoError)
  deriving DecidableEq, Repr

/-- Public wrapper of src/lib.rs (`pub struct OtherFailure(OtherError)`). -/
structure OtherFailure where
  err : OtherError
  deriving DecidableEq, Repr

/-- Public error enum of src/lib.rs (`pub enum EvalError`). -/
inductive EvalError where
  | BuildFailed (s : String)
  | OtherErr (f : OtherFailure)
  | ProgExitedWithErr (s : String)
  deriving DecidableEq, Repr

/-- Model of `Error::description` for `EvalError` (src/lib.rs lines 37-43):
a per-variant classification string. -/
def EvalError.description : EvalError → String
  | .BuildFailed _ => "Build failed"
  | .OtherErr _ => "Other error"
  | .ProgExitedWithErr _ => "Program exited with error"

/-- The build-failure classification used by the caller, embedded from
tests/basic.rs (`match error \x7b BuildFailed(_) => true, _ => false \x7d`). -/
def isBuildFailure : EvalError → Bool
  | .BuildFailed _ => true
  | _ => false

/-- Whether a byte is a UTF-8 continuation byte (0x80..0xBF). -/
def isCont (b : Nat) : Bool := 0x80 ≤ b && b ≤ 0xBF

/-- Valid second byte of a three-byte UTF-8 sequence headed by `b`
(excludes overlong encodings and surrogates, as Rust's validator does). -/
def valid3Second (b c : Nat) : Bool :=
  if b = 0xE0 then 0xA0 ≤ c && c ≤ 0xBF
  else if b = 0xED then 0x80 ≤ c && c ≤ 0x9F
  else isCont c

/-- Valid second byte of a four-byte UTF-8 sequence headed by `b`
(excludes overlong encodings and code points above 0x10FFFF). -/
def valid4Second (b c : Nat) : Bool :=
  if b = 0xF0 then 0x90 ≤ c && c ≤ 0xBF
  else if b = 0xF4 then 0x80 ≤ c && c ≤ 0x8F
  else isCont c

/-- The Unicode replacement character U+FFFD. -/
def repChar : Char := Char.ofNat 0xFFFD

/-- Fuel-indexed UTF-8 lossy decoding loop, following Rust's
`String::from_utf8_lossy`: each maximal invalid subpart is replaced by
U+FFFD.  The fuel is only a structural-recursion device; at least one byte
is consumed per step, so fuel equal to the list length suffices. -/
def utf8LossyAux : Nat → List Nat → List Char
  | _, [] => []
  | 0, _ :: _ => []
  | fuel + 1, b :: rest =>
    if b < 0x80 then Char.ofNat b :: utf8LossyAux fuel rest
    else if 0xC2 ≤ b && b ≤ 0xDF then
      match rest with
      | c :: r2 =>
        if isCont c then
          Char.ofNat ((b - 0xC0) * 0x40 + (c - 0x80)) :: utf8LossyAux fuel r2
        else repChar :: utf8LossyAux fuel (c :: r2)
      | [] => [repChar]
    else if 0xE0 ≤ b && b ≤ 0xEF then
      match rest with
      | c :: r2 =>
        if valid3Second b c then
          match r2 with
          | d :: r3 =>
            if isCont d then
              Char.ofNat ((b - 0xE0) * 0x1000 + (c - 0x80) * 0x40 + (d - 0x80))
                :: utf8LossyAux fuel r3
            else repChar :: utf8LossyAux fuel (d :: r3)
          | [] => [repChar]
        else repChar :: utf8LossyAux fuel (c :: r2)
      | [] => [repChar]
    else if 0xF0 ≤ b && b ≤ 0xF4 then
      match rest with
      | c :: r2 =>
        if valid4Second b c then
          match r2 with
          | d :: r3 =>
            if isCont d then
              match r3 with
              | e2 :: r4 =>
                if isCont e2 then
                  Char.ofNat ((b - 0xF0) * 0x40000 + (c - 0x80) * 0x1000
                      + (d - 0x80) * 0x40 + (e2 - 0x80))
                    :: utf8LossyAux fuel r4
                else repChar :: utf8LossyAux fuel (e2 :: r4)
              | [] => [repChar]
            else repChar :: utf8LossyAux fuel (d :: r3)
          | [] => [repChar]
        else repChar :: utf8LossyAux fuel (c :: r2)
      | [] => [repChar]
    else repChar :: utf8LossyAux fuel rest

/-- Model of Rust's `String::from_utf8_lossy(..).into_owned()`:
permissive decoding of a byte stream, replacing invalid sequences. -/
def from_utf8_lossy (bs : List Nat) : String :=
  (utf8LossyAux bs.length bs).asString

/-- External actions `eval` can attempt, in the order it attempts them. -/
inductive Event where
  | createTempDir
  | fsCreate (path : String)
  | fsWrite (path : String) (contents : String)
  | fsSyncAll (path : String)
  | spawn (prog : String) (args : List String)
  | removeDirAll (path : String)
  deriving DecidableEq, Repr

/-- Oracle for the three filesystem operations of `write_source_file`:
`File::create`, the `write!` call, and `sync_all`. -/
structure FsWorld where
  createResult : Except IoError Unit
  writeResult : Except IoError Unit
  syncResult : Except IoError Unit
  deriving DecidableEq, Repr

/-- Oracle for every external effect of one `eval` call: temporary-directory
creation (returning the directory path), the filesystem operations of
`write_source_file`, the `rustc` child process, and the produced program's
child process. -/
structure World where
  tempDirResult : Except IoError String
  fs : FsWorld
  rustcResult : Except IoError Output
  progResult : Except IoError Output
  deriving DecidableEq, Repr

/-- The exact text written by `write_source_file` (src/lib.rs lines 151-156):
the fixed raw-string template with the caller's code substituted verbatim as
a block-scoped expression, printed with `print!` (debug format, no trailing
newline). -/
def sourceTemplate (code : String) : String :=
  "\nfn main() \x7b\n    let expr = \x7b" ++ code ++
    "\x7d;\n    print!(\"\x7b:?\x7d\", expr);\n\x7d\n    "

/-- Embedding of `write_source_file` (src/lib.rs lines 149-158): create the
file, write the template with the code substituted, then `sync_all`; each
step short-circuits on error.  Returns the result together with the ordered
trace of attempted filesystem operations. -/
def write_source_file (path code : String) (w : FsWorld) :
    Except IoError Unit × List Event :=
  match w.createResult with
  | .error e => (.error e, [Event.fsCreate path])
  | .ok _ =>
    match w.writeResult with
    | .error e =>
      (.error e, [Event.fsCreate path, Event.fsWrite path (sourceTemplate code)])
    | .ok _ =>
      match w.syncResult with
      | .error e =>
        (.error e, [Event.fsCreate path, Event.fsWrite path (sourceTemplate code),
          Event.fsSyncAll path])
      | .ok _ =>
        (.ok (), [Event.fsCreate path, Event.fsWrite path (sourceTemplate code),
          Event.fsSyncAll path])

/-- Embedding of `eval` (src/lib.rs lines 123-147).  The stages are attempted
strictly in source order: create the temporary directory, write `main.rs`
via `write_source_file`, spawn `rustc -o <out> <src>`, and, only if the
build reported success, spawn the produced executable.  Each `?` early
return is a short circuit; the `TempDir` guard's drop emits `removeDirAll`
on every exit path after the directory was created.  Returns the
`Result<String, EvalError>` value together with the trace of attempted
external actions. -/
def eval (code : String) (w : World) : Except EvalError String × List Event :=
  match w.tempDirResult with
  | .error e =>
    (.error (EvalError.OtherErr (OtherFailure.mk (OtherError.FailedToCreateTempDir e))),
      [Event.createTempDir])
  | .ok t =>
    match (write_source_file (t ++ "/main.rs") code w.fs).1 with
    | .error e =>
      (.error (EvalError.OtherErr (OtherFailure.mk (OtherError.FailedToWriteSrcFile e))),
        Event.createTempDir :: (write_source_file (t ++ "/main.rs") code w.fs).2
          ++ [Event.removeDirAll t])
    | .ok _ =>
      match w.rustcResult with
      | .error e =>
        (.error (EvalError.OtherErr (OtherFailure.mk (OtherError.FailedToSpawnRustc e))),
          Event.createTempDir :: (write_source_file (t ++ "/main.rs") code w.fs).2
            ++ [Event.spawn "rustc" ["-o", t ++ "/main", t ++ "/main.rs"],
                Event.removeDirAll t])
      | .ok rout =>
        if !rout.statusSuccess then
          (.error (EvalError.BuildFailed (from_utf8_lossy rout.stderr)),
            Event.createTempDir :: (write_source_file (t ++ "/main.rs") code w.fs).2
              ++ [Event.spawn "rustc" ["-o", t ++ "/main", t ++ "/main.rs"],
                  Event.removeDirAll t])
        else
          match w.progResult with
          | .error e =>
            (.error (EvalError.OtherErr (OtherFailure.mk (OtherError.FailedToSpawnProg e))),
              Event.createTempDir :: (write_source_file (t ++ "/main.rs") code w.fs).2
                ++ [Event.spawn "rustc" ["-o", t ++ "/main", t ++ "/main.rs"],
                    Event.spawn (t ++ "/main") [], Event.removeDirAll t])
          | .ok pout =>
            if pout.statusSuccess then
              (.ok (from_utf8_lossy pout.stdout),
                Event.createTempDir :: (write_source_file (t ++ "/main.rs") code w.fs).2
                  ++ [Event.spawn "rustc" ["-o", t ++ "/main", t ++ "/main.rs"],
                      Event.spawn (t ++ "/main") [], Event.removeDirAll t])
            else
              (.error (EvalError.ProgExitedWithErr (from_utf8_lossy pout.stderr)),
                Event.createTempDir :: (write_source_file (t ++ "/main.rs") code w.fs).2
                  ++ [Event.spawn "rustc" ["-o", t ++ "/main", t ++ "/main.rs"],
                      Event.spawn (t ++ "/main") [], Event.removeDirAll t])

/-- On success, `write_source_file` performed exactly the three filesystem
operations in order: create, write the substituted template, sync. -/
theorem write_source_file_ok_events (path code : String) (fw : FsWorld)
    (h : (write_source_file path code fw).1 = .ok ()) :
    (write_source_file path code fw).2
      = [Event.fsCreate path, Event.fsWrite path (sourceTemplate code),
         Event.fsSyncAll path] := by
  obtain ⟨cr, wr, sr⟩ := fw
  cases cr <;> cases wr <;> cases sr <;> simp_all [write_source_file]

/-- On success, the `sync_all` call of `write_source_file` succeeded. -/
theorem write_source_file_ok_sync (path code : String) (fw : FsWorld)
    (h : (write_source_file path code fw).1 = .ok ()) :
    fw.syncResult = .ok () := by
  obtain ⟨cr, wr, sr⟩ := fw
  cases cr <;> cases wr <;> cases sr <;> simp_all [write_source_file]

/-- `write_source_file` spawns no process. -/
theorem write_source_file_no_spawn (path code : String) (fw : FsWorld)
    (p : String) (args : List String) :
    Event.spawn p args ∉ (write_source_file path code fw).2 := by
  obtain ⟨cr, wr, sr⟩ := fw
  cases cr <;> cases wr <;> cases sr <;> simp [write_source_file]

/-- All-successful filesystem oracle, for concrete instantiations. -/
def fsOkW : FsWorld := ⟨.ok (), .ok (), .ok ()⟩

/-- A world where every stage succeeds and the program prints the byte for
the character 4 on stdout. -/
def wSuccess : World :=
  ⟨.ok "/tmp/w", fsOkW, .ok ⟨true, [], []⟩, .ok ⟨true, [52], []⟩⟩

/-- A copy of `wSuccess`, componentwise identical. -/
def wSuccessCopy : World :=
  ⟨.ok "/tmp/w", fsOkW, .ok ⟨true, [], []⟩, .ok ⟨true, [52], []⟩⟩

/-- A world where the compiler runs but exits unsuccessfully, emitting the
bytes of the text err on stderr. -/
def wBuildFail : World :=
  ⟨.ok "/tmp/w", fsOkW, .ok ⟨false, [], [101, 114, 114]⟩, .ok ⟨true, [], []⟩⟩

/-- A world where the build succeeds but the program exits unsuccessfully,
emitting the bytes of the text boom on stderr. -/
def wRunFail : World :=
  ⟨.ok "/tmp/w", fsOkW, .ok ⟨true, [], []⟩, .ok ⟨false, [], [98, 111, 111, 109]⟩⟩

/-- A world where creating the temporary directory itself fails. -/
def wTempFail : World :=
  ⟨.error "nospace", fsOkW, .ok ⟨true, [], []⟩, .ok ⟨true, [], []⟩⟩

/-- C1: whenever the compiler stage exits successfully and the produced
program, when run, exits successfully, `eval` returns `Ok` whose text is
exactly the program's captured standard output decoded permissively, with
nothing appended or stripped. -/
theorem eval_success_returns_lossy_stdout (code : String) (w : World)
    (t : String) (rout pout : Output)
    (h1 : w.tempDirResult = .ok t)
    (h2 : (write_source_file (t ++ "/main.rs") code w.fs).1 = .ok ())
    (h3 : w.rustcResult = .ok rout)
    (h4 : rout.statusSuccess = true)
    (h5 : w.progResult = .ok pout)
    (h6 : pout.statusSuccess = true) :
    (eval code w).1 = .ok (from_utf8_lossy pout.stdout) := by
  simp [eval, h1, h2, h3, h4, h5, h6]

/-- C1 witness: in the world where the generated program for `2 + 2` prints
the single byte 52 and exits successfully, `eval` returns exactly the text
4, with no trailing newline. -/
theorem eval_success_returns_lossy_stdout_w :
    (eval "2 + 2" wSuccess).1 = .ok "4" := by
  rw [eval_success_returns_lossy_stdout "2 + 2" wSuccess "/tmp/w"
    ⟨true, [], []⟩ ⟨true, [52], []⟩ rfl rfl rfl rfl rfl rfl]
  decide

/-- C2: whenever the compiler process runs and exits unsuccessfully, `eval`
returns `BuildFailed` carrying exactly the compiler's captured standard
error decoded permissively, the build-failure classification holds on that
error, and the built program is never spawned (the only process spawned is
the compiler). -/
theorem eval_build_failed (code : String) (w : World) (t : String)
    (rout : Output)
    (h1 : w.tempDirResult = .ok t)
    (h2 : (write_source_file (t ++ "/main.rs") code w.fs).1 = .ok ())
    (h3 : w.rustcResult = .ok rout)
    (h4 : rout.statusSuccess = false) :
    (eval code w).1 = .error (EvalError.BuildFailed (from_utf8_lossy rout.stderr))
      ∧ isBuildFailure (EvalError.BuildFailed (from_utf8_lossy rout.stderr)) = true
      ∧ ∀ p args, Event.spawn p args ∈ (eval code w).2 → p = "rustc" := by
  refine ⟨by simp [eval, h1, h2, h3, h4], rfl, ?_⟩
  intro p args hmem
  simp [eval, h1, h2, h3, h4, write_source_file_ok_events _ _ _ h2] at hmem
  exact hmem.1

/-- C2 witness: the invalid snippet world yields `BuildFailed` with the
compiler's stderr text err, decoded from its bytes. -/
theorem eval_build_failed_w :
    (eval "\"blah\" + 4" wBuildFail).1 = .error (EvalError.BuildFailed "err") := by
  rw [(eval_build_failed "\"blah\" + 4" wBuildFail "/tmp/w"
    ⟨false, [], [101, 114, 114]⟩ rfl rfl rfl rfl).1]
  decide

/-- C3: whenever the build succeeds but the produced program runs and exits
unsuccessfully, `eval` returns `ProgExitedWithErr` carrying exactly the
program's captured standard error decoded permissively; this outcome is not
a build-kind failure and not a success. -/
theorem eval_prog_exited_with_err (code : String) (w : World) (t : String)
    (rout pout : Output)
    (h1 : w.tempDirResult = .ok t)
    (h2 : (write_source_file (t ++ "/main.rs") code w.fs).1 = .ok ())
    (h3 : w.rustcResult = .ok rout)
    (h4 : rout.statusSuccess = true)
    (h5 : w.progResult = .ok pout)
    (h6 : pout.statusSuccess = false) :
    (eval code w).1
        = .error (EvalError.ProgExitedWithErr (from_utf8_lossy pout.stderr))
      ∧ isBuildFailure (EvalError.ProgExitedWithErr (from_utf8_lossy pout.stderr))
        = false
      ∧ ∀ s, (eval code w).1 ≠ .ok s := by
  refine ⟨by simp [eval, h1, h2, h3, h4, h5, h6], rfl, ?_⟩
  intro s
  simp [eval, h1, h2, h3, h4, h5, h6]

/-- C3 witness: the aborting-program world yields `ProgExitedWithErr` with
the program's stderr text boom, decoded from its bytes. -/
theorem eval_prog_exited_with_err_w :
    (eval "std::process::abort()" wRunFail).1
      = .error (EvalError.ProgExitedWithErr "boom") := by
  rw [(eval_prog_exited_with_err "std::process::abort()" wRunFail "/tmp/w"
    ⟨true, [], []⟩ ⟨false, [], [98, 111, 111, 109]⟩ rfl rfl rfl rfl rfl rfl).1]
  decide

/-- C4: the pipeline runs materialize, build, run strictly in that order and
any stage failure short-circuits: a temp-dir failure leaves only the
creation attempt (no write, no spawn); a source-write failure means no
process is ever spawned; a build failure (spawn error or unsuccessful exit)
means the built program is never spawned; and on the all-success path the
trace is exactly create, the three file operations, the compiler spawn, the
program spawn, and cleanup, in that order. -/
theorem eval_stage_order_short_circuit (code : String) (w : World) :
    ((∃ e, w.tempDirResult = .error e) → (eval code w).2 = [Event.createTempDir])
  ∧ (∀ t, w.tempDirResult = .ok t →
      (∃ e, (write_source_file (t ++ "/main.rs") code w.fs).1 = .error e) →
      ∀ p args, Event.spawn p args ∉ (eval code w).2)
  ∧ (∀ t, w.tempDirResult = .ok t →
      (write_source_file (t ++ "/main.rs") code w.fs).1 = .ok () →
      ((∃ e, w.rustcResult = .error e)
        ∨ (∃ rout, w.rustcResult = .ok rout ∧ rout.statusSuccess = false)) →
      Event.spawn (t ++ "/main") [] ∉ (eval code w).2)
  ∧ (∀ t rout pout, w.tempDirResult = .ok t →
      (write_source_file (t ++ "/main.rs") code w.fs).1 = .ok () →
      w.rustcResult = .ok rout → rout.statusSuccess = true →
      w.progResult = .ok pout →
      (eval code w).2
        = [Event.createTempDir, Event.fsCreate (t ++ "/main.rs"),
           Event.fsWrite (t ++ "/main.rs") (sourceTemplate code),
           Event.fsSyncAll (t ++ "/main.rs"),
           Event.spawn "rustc" ["-o", t ++ "/main", t ++ "/main.rs"],
           Event.spawn (t ++ "/main") [], Event.removeDirAll t]) := by
  refine ⟨?_, ?_, ?_, ?_⟩
  · rintro ⟨e, he⟩
    simp [eval, he]
  · rintro t ht ⟨e, he⟩ p args hmem
    simp [eval, ht, he] at hmem
    exact write_source_file_no_spawn _ _ _ _ _ hmem
  · rintro t ht hw (⟨e, he⟩ | ⟨rout, hr, hs⟩) hmem
    · simp [eval, ht, hw, he, write_source_file_ok_events _ _ _ hw] at hmem
    · simp [eval, ht, hw, hr, hs, write_source_file_ok_events _ _ _ hw] at hmem
  · intro t rout pout ht hw hr hs hp
    rcases hps : pout.statusSuccess <;>
      simp [eval, ht, hw, hr, hs, hp, hps, write_source_file_ok_events _ _ _ hw]

/-- C4 witness: in the all-success world the trace is exactly the seven
external actions in pipeline order. -/
theorem eval_stage_order_short_circuit_w :
    (eval "2 + 2" wSuccess).2
      = [Event.createTempDir, Event.fsCreate "/tmp/w/main.rs",
         Event.fsWrite "/tmp/w/main.rs" (sourceTemplate "2 + 2"),
         Event.fsSyncAll "/tmp/w/main.rs",
         Event.spawn "rustc" ["-o", "/tmp/w/main", "/tmp/w/main.rs"],
         Event.spawn "/tmp/w/main" [], Event.removeDirAll "/tmp/w"] := by
  rw [(eval_stage_order_short_circuit "2 + 2" wSuccess).2.2.2 "/tmp/w"
    ⟨true, [], []⟩ ⟨true, [52], []⟩ rfl rfl rfl rfl rfl]
  rfl

/-- C5: on success, `write_source_file` performed exactly, in order, a file
creation at the target path, a write of the fixed template with the
caller's code substituted verbatim as a block-scoped expression (debug
formatted, printed with no trailing newline), and a durable `sync_all`
flush — and it returns success only if that flush succeeded. -/
theorem write_source_file_contract (path code : String) (fw : FsWorld)
    (h : (write_source_file path code fw).1 = .ok ()) :
    (write_source_file path code fw).2
      = [Event.fsCreate path,
         Event.fsWrite path ("\nfn main() \x7b\n    let expr = \x7b" ++ code
           ++ "\x7d;\n    print!(\"\x7b:?\x7d\", expr);\n\x7d\n    "),
         Event.fsSyncAll path]
      ∧ fw.syncResult = .ok () := by
  exact ⟨write_source_file_ok_events path code fw h,
    write_source_file_ok_sync path code fw h⟩

/-- C5 witness: for the code `2 + 2` the file written is exactly the
template with `2 + 2` substituted, followed by the flush. -/
theorem write_source_file_contract_w :
    (write_source_file "/w/main.rs" "2 + 2" fsOkW).2
      = [Event.fsCreate "/w/main.rs",
         Event.fsWrite "/w/main.rs"
           "\nfn main() \x7b\n    let expr = \x7b2 + 2\x7d;\n    print!(\"\x7b:?\x7d\", expr);\n\x7d\n    ",
         Event.fsSyncAll "/w/main.rs"] := by
  rw [(write_source_file_contract "/w/main.rs" "2 + 2" fsOkW rfl).1]
  rfl

/-- C6: whenever the build stage is reached, the compiler is spawned with
exactly the arguments `-o <output-path> <source-path>`; and the compiler's
captured standard output never contributes to any evaluation outcome:
replacing it by any other byte stream leaves both the result and the trace
of `eval` unchanged. -/
theorem eval_build_invoker (code : String) (w : World) (t : String) :
    (w.tempDirResult = .ok t →
      (write_source_file (t ++ "/main.rs") code w.fs).1 = .ok () →
      Event.spawn "rustc" ["-o", t ++ "/main", t ++ "/main.rs"] ∈ (eval code w).2)
  ∧ (∀ rout s, w.rustcResult = .ok rout →
      eval code (World.mk w.tempDirResult w.fs
          (.ok (Output.mk rout.statusSuccess s rout.stderr)) w.progResult)
        = eval code w) := by
  constructor
  · intro ht hw
    rcases hr : w.rustcResult with e | rout
    · simp [eval, ht, hw, hr]
    · rcases hs : rout.statusSuccess
      · simp [eval, ht, hw, hr, hs]
      · rcases hp : w.progResult with e | pout
        · simp [eval, ht, hw, hr, hs, hp]
        · rcases hps : pout.statusSuccess <;> simp [eval, ht, hw, hr, hs, hp, hps]
  · intro rout s hr
    rcases ht : w.tempDirResult with e | t2
    · simp [eval, ht]
    · rcases hw : (write_source_file (t2 ++ "/main.rs") code w.fs).1 with e | u
      · simp [eval, ht, hw]
      · rcases hs : rout.statusSuccess <;> simp [eval, ht, hw, hr, hs]

/-- C6 witness: in the all-success world, replacing the compiler's stdout by
the byte 55 changes neither the result nor the trace of `eval`. -/
theorem eval_build_invoker_w :
    eval "2 + 2" (World.mk (.ok "/tmp/w") fsOkW (.ok ⟨true, [55], []⟩)
        (.ok ⟨true, [52], []⟩))
      = eval "2 + 2" wSuccess :=
  (eval_build_invoker "2 + 2" wSuccess "/tmp/w").2 ⟨true, [], []⟩ [55] rfl

/-- C7: the build-failure classification is a narrow query on `EvalError`:
the boolean predicate from the caller's match holds exactly on `BuildFailed`
values, and coincides with the classification string `Build failed` exposed
through `description`, so the build origin of a failure is determinable
without matching the full variant set. -/
theorem evalError_build_classification (e : EvalError) :
    (isBuildFailure e = true ↔ ∃ s, e = EvalError.BuildFailed s)
  ∧ (isBuildFailure e = true ↔ EvalError.description e = "Build failed") := by
  cases e <;> simp [isBuildFailure, EvalError.description]

/-- C7 witness: a concrete build failure is classified as such through the
`description` string. -/
theorem evalError_build_classification_w :
    EvalError.description (EvalError.BuildFailed "boom") = "Build failed" :=
  (evalError_build_classification (EvalError.BuildFailed "boom")).2.mp rfl

/-- C8: `eval` is deterministic in the code string and the behaviour of the
external environment: two calls with identical code under componentwise
identical external responses yield the same outcome, in classification,
content, and even the trace of attempted actions. -/
theorem eval_deterministic (code1 code2 : String) (w1 w2 : World)
    (hc : code1 = code2)
    (h1 : w1.tempDirResult = w2.tempDirResult)
    (h2 : w1.fs = w2.fs)
    (h3 : w1.rustcResult = w2.rustcResult)
    (h4 : w1.progResult = w2.progResult) :
    eval code1 w1 = eval code2 w2 := by
  obtain ⟨a1, b1, c1, d1⟩ := w1
  obtain ⟨a2, b2, c2, d2⟩ := w2
  simp only [] at h1 h2 h3 h4
  rw [hc, h1, h2, h3, h4]

/-- C8 witness: two calls with the code `2 + 2` under componentwise equal
worlds produce identical outcomes. -/
theorem eval_deterministic_w :
    eval "2 + 2" wSuccess = eval "2 + 2" wSuccessCopy :=
  eval_deterministic "2 + 2" "2 + 2" wSuccess wSuccessCopy rfl rfl rfl rfl rfl

/-- C9: on every exit path on which the temporary workspace directory was
created, the last external action of `eval` is the recursive deletion of
that directory (and with it the generated source file and any built
artifact), so the workspace does not outlive the call. -/
theorem eval_workspace_cleanup (code : String) (w : World) (t : String)
    (h : w.tempDirResult = .ok t) :
    ∃ pre, (eval code w).2 = pre ++ [Event.removeDirAll t] := by
  rcases hw : (write_source_file (t ++ "/main.rs") code w.fs).1 with e | u
  · exact ⟨Event.createTempDir :: (write_source_file (t ++ "/main.rs") code w.fs).2,
      by simp [eval, h, hw]⟩
  · cases u
    rcases hr : w.rustcResult with e | rout
    · exact ⟨Event.createTempDir :: (write_source_file (t ++ "/main.rs") code w.fs).2
        ++ [Event.spawn "rustc" ["-o", t ++ "/main", t ++ "/main.rs"]],
        by simp [eval, h, hw, hr]⟩
    · rcases hs : rout.statusSuccess
      · exact ⟨Event.createTempDir :: (write_source_file (t ++ "/main.rs") code w.fs).2
          ++ [Event.spawn "rustc" ["-o", t ++ "/main", t ++ "/main.rs"]],
          by simp [eval, h, hw, hr, hs]⟩
      · rcases hp : w.progResult with e | pout
        · exact ⟨Event.createTempDir :: (write_source_file (t ++ "/main.rs") code w.fs).2
            ++ [Event.spawn "rustc" ["-o", t ++ "/main", t ++ "/main.rs"],
                Event.spawn (t ++ "/main") []],
            by simp [eval, h, hw, hr, hs, hp]⟩
        · refine ⟨Event.createTempDir :: (write_source_file (t ++ "/main.rs") code w.fs).2
            ++ [Event.spawn "rustc" ["-o", t ++ "/main", t ++ "/main.rs"],
                Event.spawn (t ++ "/main") []], ?_⟩
          rcases hps : pout.statusSuccess <;> simp [eval, h, hw, hr, hs, hp, hps]

/-- C9 witness: in the run-failure world the trace still ends with the
recursive deletion of the workspace directory. -/
theorem eval_workspace_cleanup_w :
    ∃ pre, (eval "std::process::abort()" wRunFail).2
      = pre ++ [Event.removeDirAll "/tmp/w"] :=
  eval_workspace_cleanup "std::process::abort()" wRunFail "/tmp/w" rfl

/-- C10: if creating the temporary workspace directory fails, `eval` returns
the wrapped-cause variant `OtherErr (FailedToCreateTempDir e)` carrying the
underlying system error, the build-failure classification on it is false,
and the trace shows no further external action: no file is written, no
compiler is spawned, no program is run. -/
theorem eval_tempdir_creation_failure (code : String) (w : World) (e : IoError)
    (h : w.tempDirResult = .error e) :
    (eval code w).1
        = .error (EvalError.OtherErr
            (OtherFailure.mk (OtherError.FailedToCreateTempDir e)))
      ∧ isBuildFailure (EvalError.OtherErr
            (OtherFailure.mk (OtherError.FailedToCreateTempDir e))) = false
      ∧ (eval code w).2 = [Event.createTempDir] := by
  refine ⟨by simp [eval, h], rfl, by simp [eval, h]⟩

/-- C10 witness: in the world where temp-dir creation fails with the system
error nospace, `eval` returns that wrapped cause and attempted nothing
else. -/
theorem eval_tempdir_creation_failure_w :
    (eval "2 + 2" wTempFail).1
        = .error (EvalError.OtherErr
            (OtherFailure.mk (OtherError.FailedToCreateTempDir "nospace")))
      ∧ isBuildFailure (EvalError.OtherErr
            (OtherFailure.mk (OtherError.FailedToCreateTempDir "nospace"))) = false
      ∧ (eval "2 + 2" wTempFail).2 = [Event.createTempDir] :=
  eval_tempdir_creation_failure "2 + 2" wTempFail "nospace" rfl

end Everust
